import Mathlib

/-!
Verification development for the CinemaAbyss strangler-fig migration
repository: a shallow embedding of the traffic-routing proxy
(`src/strangler-fig proxy source`) and of the events microservice
(`src/microservices/events/main.go`), with theorems about the routing
decision, configuration parsing, event ingestion, the broker-writer
singleton and the per-topic consumer loop.
-/

namespace CinemaAbyss

/-- The process environment: a partial map from variable names to values. -/
def Env : Type := String → Option String

/-- Model of the shared helper getEnv: the variable's value when set,
the fallback otherwise. Both programs define it identically. -/
def getEnv (env : Env) (key fallback : String) : String :=
  match env key with
  | some value => value
  | none => fallback

namespace Proxy

/-- Character-list core of Go strings.HasPrefix. -/
def hasPfx : List Char → List Char → Bool
  | _, [] => true
  | [], _ :: _ => false
  | c :: cs, p :: ps => c == p && hasPfx cs ps

/-- Model of Go strings.HasPrefix on strings (byte-prefix of valid UTF-8
coincides with character-prefix). -/
def goHasPfx (s pat : String) : Bool := hasPfx s.data pat.data

/-- Numeric value of a decimal digit character, none for a non-digit. -/
def digitVal (c : Char) : Option Nat :=
  if 48 ≤ c.toNat ∧ c.toNat ≤ 57 then some (c.toNat - 48) else none

/-- Accumulating decimal parse of a character list; none on any non-digit. -/
def digitsVal : List Char → Nat → Option Nat
  | [], acc => some acc
  | c :: cs, acc =>
    match digitVal c with
    | some d => digitsVal cs (acc * 10 + d)
    | none => none

/-- Greatest int64 value, the overflow bound of Go strconv.Atoi. -/
def int64Max : Nat := 9223372036854775807

/-- Model of Go strconv.Atoi: an optional sign followed by at least one
decimal digit, rejecting values outside the int64 range (on overflow Atoi
reports an error, which is all the caller inspects). -/
def goAtoi (s : String) : Option Int :=
  match s.data with
  | [] => none
  | '+' :: [] => none
  | '+' :: rest =>
    (digitsVal rest 0).bind fun n =>
      if n ≤ int64Max then some (n : Int) else none
  | '-' :: [] => none
  | '-' :: rest =>
    (digitsVal rest 0).bind fun n =>
      if n ≤ int64Max + 1 then some (-(n : Int)) else none
  | l =>
    (digitsVal l 0).bind fun n =>
      if n ≤ int64Max then some (n : Int) else none

/-- Embedding of parseMigrationPercent: Atoi failure or a value outside
[0,100] yields 0 (with a log line, not modeled); otherwise the parsed value. -/
def parseMigrationPercent (percentStr : String) : Int :=
  match goAtoi percentStr with
  | none => 0
  | some percent => if percent < 0 ∨ percent > 100 then 0 else percent

/-- Embedding of ProxyConfig. URLs are modeled by their textual form:
url.Parse is external standard-library code whose failure aborts startup
(parseURL calls log.Fatalf), so a running process always holds the parsed
form of exactly these strings. -/
structure ProxyConfig where
  port : String
  monolithURL : String
  moviesServiceURL : String
  eventsServiceURL : String
  gradualMigration : Bool
  moviesMigrationPercent : Int
deriving DecidableEq, Repr

/-- Embedding of loadConfig: each field read from the environment with its
default; the migration percentage passes through parseMigrationPercent. -/
def loadConfig (env : Env) : ProxyConfig :=
  { port := getEnv env "PORT" "8000"
    monolithURL := getEnv env "MONOLITH_URL" "http://localhost:8080"
    moviesServiceURL := getEnv env "MOVIES_SERVICE_URL" "http://localhost:8081"
    eventsServiceURL := getEnv env "EVENTS_SERVICE_URL" "http://localhost:8082"
    gradualMigration := getEnv env "GRADUAL_MIGRATION" "false" == "true"
    moviesMigrationPercent :=
      parseMigrationPercent (getEnv env "MOVIES_MIGRATION_PERCENT" "0") }

/-- The shared random source, modeled as a stream of raw draws with a cursor:
consulting the source reads one value and advances the cursor. -/
structure RandSource where
  draws : Nat → Nat
  idx : Nat

/-- Model of rand.Intn 100: one value in [0,100) from the shared source,
together with the advanced source. -/
def intn100 (σ : RandSource) : Nat × RandSource :=
  (σ.draws σ.idx % 100, { draws := σ.draws, idx := σ.idx + 1 })

/-- Embedding of shouldRouteToMovies: false without consulting the source
when gradual migration is off; otherwise one draw in [0,100), compared
strictly against the configured percentage. -/
def shouldRouteToMovies (config : ProxyConfig) (σ : RandSource) :
    Bool × RandSource :=
  if !config.gradualMigration then (false, σ)
  else
    let p := intn100 σ
    (decide ((p.1 : Int) < config.moviesMigrationPercent), p.2)

/-- Model of httputil.ReverseProxy: identified by the upstream base URL it
was built from (createReverseProxy wraps NewSingleHostReverseProxy). -/
structure ReverseProxy where
  target : String
deriving DecidableEq, Repr

/-- Embedding of createReverseProxy. -/
def createReverseProxy (targetURL : String) : ReverseProxy :=
  { target := targetURL }

/-- Embedding of routeRequest: the Go switch in source order — movies area
first (probabilistic split), then events area (fixed), then the monolith
default. The random source is threaded explicitly; branches that never call
shouldRouteToMovies return it unchanged. -/
def routeRequest (config : ProxyConfig) (path : String) (σ : RandSource) :
    (ReverseProxy × String) × RandSource :=
  if goHasPfx path "/api/movies" then
    let r := shouldRouteToMovies config σ
    if r.1 then ((createReverseProxy config.moviesServiceURL, "movies-service"), r.2)
    else ((createReverseProxy config.monolithURL, "monolith"), r.2)
  else if goHasPfx path "/api/events" then
    ((createReverseProxy config.eventsServiceURL, "events-service"), σ)
  else
    ((createReverseProxy config.monolithURL, "monolith"), σ)

end Proxy

namespace Events

/-- HTTP request methods. -/
inductive Method where
  | GET
  | POST
  | PUT
  | DELETE
  | HEAD
  | other (verb : String)
deriving DecidableEq, Repr

/-- Model of Go time.Time values as carried by this service: an instant
identified by its textual UTC rendering (the service never computes with
times, it only decodes, encodes and reports them). -/
structure GoTime where
  rep : String
deriving DecidableEq, Repr

/-- The zero value of Go time.Time. -/
def zeroTime : GoTime := { rep := "0001-01-01T00:00:00Z" }

/-- A JSON document, as produced by the encoding/json scanner. Numbers are
modeled as rationals (covering every int and float64 payload the decoder
accepts for these events). -/
inductive Json where
  | null
  | bool (b : Bool)
  | num (q : Rat)
  | str (s : String)
  | arr (elems : List Json)
  | obj (fields : List (String × Json))

/-- Embedding of MovieEvent. The validate tags of the source declare every
field required; the embedding keeps the raw struct, since no code in the
service ever evaluates those tags. -/
structure MovieEvent where
  movie_id : Int
  title : String
  action : String
  user_id : Int
deriving DecidableEq, Repr

/-- Embedding of UserEvent. -/
structure UserEvent where
  user_id : Int
  username : String
  action : String
  timestamp : GoTime
deriving DecidableEq, Repr

/-- Embedding of PaymentEvent. -/
structure PaymentEvent where
  payment_id : Int
  user_id : Int
  amount : Rat
  status : String
  timestamp : GoTime
deriving DecidableEq, Repr

/-- Go zero value of MovieEvent, the state of the struct before decoding. -/
def zeroMovieEvent : MovieEvent :=
  { movie_id := 0, title := "", action := "", user_id := 0 }

/-- Go zero value of UserEvent. -/
def zeroUserEvent : UserEvent :=
  { user_id := 0, username := "", action := "", timestamp := zeroTime }

/-- Go zero value of PaymentEvent. -/
def zeroPaymentEvent : PaymentEvent :=
  { payment_id := 0, user_id := 0, amount := 0, status := "", timestamp := zeroTime }

/-- The three topic constants of the source. -/
def movieTopic : String := "movie-events"

/-- Topic for user events. -/
def userTopic : String := "user-events"

/-- Topic for payment events. -/
def paymentTopic : String := "payment-events"

/-- The discriminated union of decoded events, one variant per topic. -/
inductive EventData where
  | movie (e : MovieEvent)
  | user (e : UserEvent)
  | payment (e : PaymentEvent)
deriving DecidableEq, Repr

/-- encoding/json decode of one object member into a MovieEvent: a null
member is a no-op, a matching member must carry the field's type (an int
field requires an integral number), an unknown key is ignored. -/
def setMovieField (e : MovieEvent) : String × Json → Except String MovieEvent
  | ("movie_id", Json.null) => Except.ok e
  | ("movie_id", Json.num q) =>
    if q.den = 1 then Except.ok { e with movie_id := q.num }
    else Except.error "json: cannot unmarshal number into movie_id of type int"
  | ("movie_id", _) => Except.error "json: cannot unmarshal into movie_id of type int"
  | ("title", Json.null) => Except.ok e
  | ("title", Json.str s) => Except.ok { e with title := s }
  | ("title", _) => Except.error "json: cannot unmarshal into title of type string"
  | ("action", Json.null) => Except.ok e
  | ("action", Json.str s) => Except.ok { e with action := s }
  | ("action", _) => Except.error "json: cannot unmarshal into action of type string"
  | ("user_id", Json.null) => Except.ok e
  | ("user_id", Json.num q) =>
    if q.den = 1 then Except.ok { e with user_id := q.num }
    else Except.error "json: cannot unmarshal number into user_id of type int"
  | ("user_id", _) => Except.error "json: cannot unmarshal into user_id of type int"
  | (_, _) => Except.ok e

/-- encoding/json decode of one object member into a UserEvent. A time.Time
field decodes from a string (the standard library additionally insists on
RFC3339 form; the embedding keeps the text, accepting a superset — none of
the properties below depends on rejecting a malformed instant). -/
def setUserField (e : UserEvent) : String × Json → Except String UserEvent
  | ("user_id", Json.null) => Except.ok e
  | ("user_id", Json.num q) =>
    if q.den = 1 then Except.ok { e with user_id := q.num }
    else Except.error "json: cannot unmarshal number into user_id of type int"
  | ("user_id", _) => Except.error "json: cannot unmarshal into user_id of type int"
  | ("username", Json.null) => Except.ok e
  | ("username", Json.str s) => Except.ok { e with username := s }
  | ("username", _) => Except.error "json: cannot unmarshal into username of type string"
  | ("action", Json.null) => Except.ok e
  | ("action", Json.str s) => Except.ok { e with action := s }
  | ("action", _) => Except.error "json: cannot unmarshal into action of type string"
  | ("timestamp", Json.null) => Except.ok e
  | ("timestamp", Json.str s) => Except.ok { e with timestamp := { rep := s } }
  | ("timestamp", _) => Except.error "json: cannot unmarshal into timestamp of type Time"
  | (_, _) => Except.ok e

/-- encoding/json decode of one object member into a PaymentEvent. -/
def setPaymentField (e : PaymentEvent) : String × Json → Except String PaymentEvent
  | ("payment_id", Json.null) => Except.ok e
  | ("payment_id", Json.num q) =>
    if q.den = 1 then Except.ok { e with payment_id := q.num }
    else Except.error "json: cannot unmarshal number into payment_id of type int"
  | ("payment_id", _) => Except.error "json: cannot unmarshal into payment_id of type int"
  | ("user_id", Json.null) => Except.ok e
  | ("user_id", Json.num q) =>
    if q.den = 1 then Except.ok { e with user_id := q.num }
    else Except.error "json: cannot unmarshal number into user_id of type int"
  | ("user_id", _) => Except.error "json: cannot unmarshal into user_id of type int"
  | ("amount", Json.null) => Except.ok e
  | ("amount", Json.num q) => Except.ok { e with amount := q }
  | ("amount", _) => Except.error "json: cannot unmarshal into amount of type float64"
  | ("status", Json.null) => Except.ok e
  | ("status", Json.str s) => Except.ok { e with status := s }
  | ("status", _) => Except.error "json: cannot unmarshal into status of type string"
  | ("timestamp", Json.null) => Except.ok e
  | ("timestamp", Json.str s) => Except.ok { e with timestamp := { rep := s } }
  | ("timestamp", _) => Except.error "json: cannot unmarshal into timestamp of type Time"
  | (_, _) => Except.ok e

/-- The event kind a topic selects, mirroring the switch of parseEventData. -/
inductive EventKind where
  | movie
  | user
  | payment
deriving DecidableEq, Repr

/-- Topic-to-variant selection of parseEventData's switch. -/
def kindOfTopic : String → Option EventKind
  | "movie-events" => some EventKind.movie
  | "user-events" => some EventKind.user
  | "payment-events" => some EventKind.payment
  | _ => none

/-- encoding/json decode of a document into the struct a kind selects: an
object is folded member by member starting from the zero value (missing
members simply stay at their zero values — this is the decode-time contract
the spec warns about), a null document leaves the zero value, anything else
is a type error. -/
def decodeBody : EventKind → Json → Except String EventData
  | EventKind.movie, Json.obj fields =>
    (fields.foldlM setMovieField zeroMovieEvent).map EventData.movie
  | EventKind.movie, Json.null => Except.ok (EventData.movie zeroMovieEvent)
  | EventKind.movie, _ => Except.error "json: cannot unmarshal into MovieEvent"
  | EventKind.user, Json.obj fields =>
    (fields.foldlM setUserField zeroUserEvent).map EventData.user
  | EventKind.user, Json.null => Except.ok (EventData.user zeroUserEvent)
  | EventKind.user, _ => Except.error "json: cannot unmarshal into UserEvent"
  | EventKind.payment, Json.obj fields =>
    (fields.foldlM setPaymentField zeroPaymentEvent).map EventData.payment
  | EventKind.payment, Json.null => Except.ok (EventData.payment zeroPaymentEvent)
  | EventKind.payment, _ => Except.error "json: cannot unmarshal into PaymentEvent"

/-- An HTTP request as the handlers see it: the method and the request body.
A body that is not well-formed JSON is `none` (the decoder's syntax error);
a well-formed one is the parsed document. -/
structure HttpRequest where
  method : Method
  body : Option Json

/-- An HTTP response: status code and the bytes written. -/
structure HttpResponse where
  statusCode : Nat
  body : String
deriving DecidableEq, Repr

/-- Embedding of parseEventData: the switch picks the target struct for the
topic (an unknown topic is the UnsupportedTypeError branch), then the body
is decoded into it; any decoder error is returned to the handler. -/
def parseEventData (topic : String) (body : Option Json) : Except String EventData :=
  match kindOfTopic topic with
  | none => Except.error "json: unsupported type"
  | some kind =>
    match body with
    | none => Except.error "invalid character in request body"
    | some j => decodeBody kind j

/-- A broker message as built by sendToKafka. json.Marshal of the three
event struct types is total and injective, so the message value is modeled
by the event it serializes. -/
structure KafkaMessage where
  topic : String
  value : EventData
deriving DecidableEq, Repr

/-- Observable side effects of one handler invocation, in program order. -/
inductive Effect where
  | bodyDecoded (topic : String)
  | kafkaWrite (message : KafkaMessage) (ok : Bool)
  | logLine (tag : String)
deriving DecidableEq, Repr

/-- Embedding of sendToKafka: marshal the event (total for these types),
wrap it in a message addressed to the topic, and hand it to the shared
writer. The broker's verdict on WriteMessages is external, so it enters as
the `writeResult` parameter; the function performs no retry. -/
def sendToKafka (topic : String) (eventData : EventData)
    (writeResult : Except String Unit) : Except String Unit × KafkaMessage :=
  (writeResult, { topic := topic, value := eventData })

/-- Body written by http.Error for the method check (it appends a newline). -/
def methodNotAllowedBody : String := "Метод не поддерживается\n"

/-- Body written by http.Error when the Kafka send fails. -/
def kafkaErrorBody : String := "Ошибка обработки события\n"

/-- Body written by sendSuccessResponse: json.NewEncoder renders the
two-entry string map with its keys in sorted order and a trailing newline. -/
def successBody : String :=
  "\x7b\"message\":\"Событие успешно обработано\",\"status\":\"success\"\x7d\n"

/-- Embedding of handleEvent for one topic: reject a non-POST method before
touching the body; decode the body (an error is a 400 with the decoder's
message); send to Kafka (an error is logged and answered 500); otherwise
sendSuccessResponse logs the payload and answers 201. The effect list
records, in order, what the invocation did. -/
def handleEvent (topic : String) (writeResult : Except String Unit)
    (r : HttpRequest) : HttpResponse × List Effect :=
  if r.method ≠ Method.POST then
    ({ statusCode := 405, body := methodNotAllowedBody }, [])
  else
    match parseEventData topic r.body with
    | Except.error e =>
      ({ statusCode := 400, body := e ++ "\n" }, [Effect.bodyDecoded topic])
    | Except.ok eventData =>
      let sent := sendToKafka topic eventData writeResult
      match sent.1 with
      | Except.error _ =>
        ({ statusCode := 500, body := kafkaErrorBody },
         [Effect.bodyDecoded topic,
          Effect.kafkaWrite sent.2 false,
          Effect.logLine "kafka-send-error"])
      | Except.ok _ =>
        ({ statusCode := 201, body := successBody },
         [Effect.bodyDecoded topic,
          Effect.kafkaWrite sent.2 true,
          Effect.logLine "message-sent"])

/-- Body written by healthCheckHandler: json.NewEncoder renders the map
with keys in sorted order (service, status, timestamp) and a newline; the
timestamp is the current instant in UTC. -/
def healthCheckBody (now : GoTime) : String :=
  "\x7b\"service\":\"events-service\",\"status\":true,\"timestamp\":\"" ++
    now.rep ++ "\"\x7d\n"

/-- Embedding of healthCheckHandler: a 200 with the status document. The
request (its method included) is never inspected. -/
def healthCheckHandler (_r : HttpRequest) (now : GoTime) : HttpResponse :=
  { statusCode := 200, body := healthCheckBody now }

/-- The route table main installs on the default mux: the three event
endpoints and the health endpoint, each on an exact path (none ends in a
slash, so ServeMux matches them exactly); any other path is not handled by
this service's mux. -/
def serviceMux (path : String) (writeResult : Except String Unit)
    (r : HttpRequest) (now : GoTime) : Option (HttpResponse × List Effect) :=
  if path = "/api/events/movie" then some (handleEvent movieTopic writeResult r)
  else if path = "/api/events/user" then some (handleEvent userTopic writeResult r)
  else if path = "/api/events/payment" then some (handleEvent paymentTopic writeResult r)
  else if path = "/api/events/health" then some (healthCheckHandler r now, [])
  else none

/-- Model of Go strings.Split on a comma, as both Kafka call sites use it. -/
def splitBrokers (s : String) : List String := s.splitOn ","

/-- Embedding of the kafka.Writer the service builds: the broker address
list (kafka.TCP of the split KAFKA_BROKERS value) and the LeastBytes
balancer, plus an allocation identity so that distinct constructions of the
writer are distinguishable values. -/
structure KafkaWriter where
  id : Nat
  addr : List String
deriving DecidableEq, Repr

/-- Embedding of initKafkaWriter: a fresh writer for the configured broker
list, carrying the next allocation identity. -/
def initKafkaWriter (env : Env) (freshId : Nat) : KafkaWriter :=
  { id := freshId, addr := splitBrokers (getEnv env "KAFKA_BROKERS" "localhost:9092") }

/-- The process-wide state behind getKafkaWriter: the sync.Once cell holding
the writer once built, plus the allocation counter that makes construction
observable. -/
structure OnceState where
  nextId : Nat
  kafkaWriter : Option KafkaWriter
deriving DecidableEq, Repr

/-- The state at process start: nothing allocated, the once cell empty. -/
def initialOnceState : OnceState := { nextId := 0, kafkaWriter := none }

/-- Embedding of getKafkaWriter. sync.Once.Do guarantees the function runs
at most once and that every caller returns only after it has completed, so
concurrent calls linearize: each call is one atomic step on the shared
state — run the initializer if the cell is empty, then return the cell's
writer. -/
def getKafkaWriter (env : Env) (s : OnceState) : KafkaWriter × OnceState :=
  match s.kafkaWriter with
  | some w => (w, s)
  | none =>
    let w := initKafkaWriter env s.nextId
    (w, { nextId := s.nextId + 1, kafkaWriter := some w })

/-- Any interleaving of n calls to getKafkaWriter, linearized by the order
their once.Do steps commit: the writers the calls return, and the final
shared state. -/
def runCalls (env : Env) (s : OnceState) : Nat → List KafkaWriter × OnceState
  | 0 => ([], s)
  | n + 1 =>
    let first := getKafkaWriter env s
    let rest := runCalls env first.2 n
    (first.1 :: rest.1, rest.2)

/-- A message as returned by reader.ReadMessage. -/
structure ConsumedMessage where
  topic : String
  offset : Int
  value : String
deriving DecidableEq, Repr

/-- One outcome of reader.ReadMessage: a message, or a read error. -/
inductive ReadResult where
  | msg (m : ConsumedMessage)
  | err (e : String)
deriving DecidableEq, Repr

/-- The message a read outcome carries, if any. -/
def msgOf : ReadResult → Option ConsumedMessage
  | ReadResult.msg m => some m
  | ReadResult.err _ => none

/-- Embedding of the kafka.ReaderConfig consumeTopic builds. -/
structure ReaderConfig where
  brokers : List String
  topic : String
  groupID : String
  minBytes : Nat
  maxBytes : Nat
deriving DecidableEq, Repr

/-- The for-loop of consumeTopic over the stream of outcomes the reader
yields: each message is logged and the loop continues; the first error is
logged and the loop breaks — nothing after it is ever read. The result is
the list of messages the task logs before terminating. -/
def consumeLoop : List ReadResult → List ConsumedMessage
  | [] => []
  | ReadResult.msg m :: rest => m :: consumeLoop rest
  | ReadResult.err _ :: _ => []

/-- Embedding of consumeTopic: build the reader for the topic under the
fixed consumer group, then run the read-and-log loop until its first error
(wg.Done and reader.Close are deferred cleanup with no observable output).
The stream of read outcomes is external input. -/
def consumeTopic (env : Env) (topic : String) (reads : List ReadResult) :
    ReaderConfig × List ConsumedMessage :=
  ({ brokers := splitBrokers (getEnv env "KAFKA_BROKERS" "localhost:9092")
     topic := topic
     groupID := "cinemaabyss-events-consumer-group"
     minBytes := 10000
     maxBytes := 10000000 },
   consumeLoop reads)

end Events

/-! Concrete sample values used by the witness theorems. -/

/-- An environment with no variables set: every lookup takes its fallback. -/
def emptyEnv : Env := fun _ => none

/-- A proxy configuration with gradual migration disabled. -/
def sampleConfigOff : Proxy.ProxyConfig :=
  { port := "8000", monolithURL := "http://localhost:8080",
    moviesServiceURL := "http://localhost:8081",
    eventsServiceURL := "http://localhost:8082",
    gradualMigration := false, moviesMigrationPercent := 75 }

/-- The same configuration with migration enabled at 100 percent. -/
def sampleConfigOn100 : Proxy.ProxyConfig :=
  { sampleConfigOff with gradualMigration := true, moviesMigrationPercent := 100 }

/-- A random source whose raw draws are all 255 (so each drawn value is 55). -/
def sampleSource : Proxy.RandSource := { draws := fun _ => 255, idx := 0 }

/-- A fully populated movie-event request body. -/
def sampleMovieBody : Events.Json :=
  Events.Json.obj [("movie_id", Events.Json.num 1), ("title", Events.Json.str "Dune"),
    ("action", Events.Json.str "viewed"), ("user_id", Events.Json.num 42)]

/-- The event sampleMovieBody decodes to. -/
def sampleMovieEvent : Events.EventData :=
  Events.EventData.movie { movie_id := 1, title := "Dune", action := "viewed", user_id := 42 }

/-- A first consumed message. -/
def sampleMsg1 : Events.ConsumedMessage :=
  { topic := "movie-events", offset := 0, value := "m1" }

/-- A second consumed message, behind a read error in the stream. -/
def sampleMsg2 : Events.ConsumedMessage :=
  { topic := "movie-events", offset := 1, value := "m2" }

/-! Theorems. -/

/-- The two literal path patterns of routeRequest are mutually exclusive: a
path with the events-area pattern cannot also match the movies-area
pattern (they differ at their sixth character). -/
theorem eventsPath_not_moviesPath (path : String)
    (h : Proxy.goHasPfx path "/api/events" = true) :
    Proxy.goHasPfx path "/api/movies" = false := by
  unfold Proxy.goHasPfx at h ⊢
  have he : ("/api/events").data = ['/', 'a', 'p', 'i', '/', 'e', 'v', 'e', 'n', 't', 's'] := rfl
  have hm : ("/api/movies").data = ['/', 'a', 'p', 'i', '/', 'm', 'o', 'v', 'i', 'e', 's'] := rfl
  rw [he] at h
  rw [hm]
  rcases hp : path.data with _ | ⟨c0, _ | ⟨c1, _ | ⟨c2, _ | ⟨c3, _ | ⟨c4, _ | ⟨c5, rest⟩⟩⟩⟩⟩⟩ <;>
    rw [hp] at h <;> simp [Proxy.hasPfx] at h ⊢
  obtain ⟨h0, h1, h2, h3, h4, h5, _⟩ := h
  subst h0 h1 h2 h3 h4 h5
  simp

/-- Claim C3: on a movies-area path with gradual migration disabled, the
routing decision is the monolith proxy with label "monolith" for every
configuration, and the shared random source comes back unchanged — the
disabled branch of shouldRouteToMovies returns before any draw, so the
decision is deterministic. -/
theorem routeRequest_movies_disabled_monolith (cfg : Proxy.ProxyConfig) (path : String)
    (σ : Proxy.RandSource)
    (hpath : Proxy.goHasPfx path "/api/movies" = true)
    (hgate : cfg.gradualMigration = false) :
    Proxy.routeRequest cfg path σ =
      ((Proxy.createReverseProxy cfg.monolithURL, "monolith"), σ) := by
  unfold Proxy.routeRequest Proxy.shouldRouteToMovies
  simp [hpath, hgate]

/-- Claim C2: on a movies-area path with gradual migration enabled, the
decision consumes exactly one draw; a percentage of 0 yields the monolith
for every possible draw, a percentage of 100 yields the movies service for
every possible draw (each draw lies in [0,100)), and in general the movies
service is chosen exactly when the draw is strictly below the percentage. -/
theorem routeRequest_movies_enabled_split (cfg : Proxy.ProxyConfig) (path : String)
    (σ : Proxy.RandSource)
    (hpath : Proxy.goHasPfx path "/api/movies" = true)
    (hgate : cfg.gradualMigration = true) :
    (cfg.moviesMigrationPercent = 0 →
      Proxy.routeRequest cfg path σ =
        ((Proxy.createReverseProxy cfg.monolithURL, "monolith"), (Proxy.intn100 σ).2)) ∧
    (cfg.moviesMigrationPercent = 100 →
      Proxy.routeRequest cfg path σ =
        ((Proxy.createReverseProxy cfg.moviesServiceURL, "movies-service"), (Proxy.intn100 σ).2)) ∧
    ((Proxy.routeRequest cfg path σ).1 =
        (Proxy.createReverseProxy cfg.moviesServiceURL, "movies-service") ↔
      ((Proxy.intn100 σ).1 : Int) < cfg.moviesMigrationPercent) := by
  unfold Proxy.routeRequest Proxy.shouldRouteToMovies
  simp only [hpath, hgate]
  by_cases hlt : ((Proxy.intn100 σ).1 : Int) < cfg.moviesMigrationPercent
  · refine ⟨?_, fun _ => by simp [hlt], by simp [hlt]⟩
    intro h0
    rw [h0] at hlt
    exact absurd hlt (by omega)
  · have hdraw : ((Proxy.intn100 σ).1 : Int) < 100 := by
      have := Nat.mod_lt (σ.draws σ.idx) (show 0 < 100 by decide)
      unfold Proxy.intn100
      omega
    refine ⟨fun _ => by simp [hlt], ?_, by simp [hlt]⟩
    intro h100
    rw [h100] at hlt
    exact absurd hdraw hlt

/-- Claim C4: a path matching neither area pattern routes to the monolith
for every configuration (flag and percentage arbitrary) with the random
source untouched, and every events-area path routes to the events service
with the random source untouched — no probabilistic split in either case. -/
theorem routeRequest_default_and_events (cfg : Proxy.ProxyConfig) (path : String)
    (σ : Proxy.RandSource) :
    (Proxy.goHasPfx path "/api/movies" = false →
      Proxy.goHasPfx path "/api/events" = false →
      Proxy.routeRequest cfg path σ =
        ((Proxy.createReverseProxy cfg.monolithURL, "monolith"), σ)) ∧
    (Proxy.goHasPfx path "/api/events" = true →
      Proxy.routeRequest cfg path σ =
        ((Proxy.createReverseProxy cfg.eventsServiceURL, "events-service"), σ)) := by
  constructor
  · intro hm he
    unfold Proxy.routeRequest
    simp [hm, he]
  · intro he
    have hm := eventsPath_not_moviesPath path he
    unfold Proxy.routeRequest
    simp [hm, he]

/-- Claim C5: parseMigrationPercent always lands in [0,100]; an Atoi
failure maps to 0, an Atoi value outside [0,100] maps to 0, an Atoi value
inside [0,100] maps to itself; and the loaded configuration's percentage
therefore lies in [0,100] for every environment — the coercion happens in
loadConfig, never in the routing decision. -/
theorem parseMigrationPercent_in_range (s : String) (env : Env) :
    (0 ≤ Proxy.parseMigrationPercent s ∧ Proxy.parseMigrationPercent s ≤ 100) ∧
    (Proxy.goAtoi s = none → Proxy.parseMigrationPercent s = 0) ∧
    (∀ n : Int, Proxy.goAtoi s = some n → (n < 0 ∨ 100 < n) →
      Proxy.parseMigrationPercent s = 0) ∧
    (∀ n : Int, Proxy.goAtoi s = some n → 0 ≤ n → n ≤ 100 →
      Proxy.parseMigrationPercent s = n) ∧
    (0 ≤ (Proxy.loadConfig env).moviesMigrationPercent ∧
      (Proxy.loadConfig env).moviesMigrationPercent ≤ 100) := by
  have key : ∀ t : String,
      0 ≤ Proxy.parseMigrationPercent t ∧ Proxy.parseMigrationPercent t ≤ 100 := by
    intro t
    unfold Proxy.parseMigrationPercent
    cases h : Proxy.goAtoi t with
    | none => simp
    | some n =>
      by_cases hr : n < 0 ∨ n > 100
      · simp [hr]
      · simp [hr]
        omega
  refine ⟨key s, ?_, ?_, ?_, key _⟩
  · intro h
    unfold Proxy.parseMigrationPercent
    rw [h]
  · intro n h hr
    unfold Proxy.parseMigrationPercent
    rw [h]
    simp
    intro h0 h100
    omega
  · intro n h h0 h100
    unfold Proxy.parseMigrationPercent
    rw [h]
    simp
    omega

/-- Claim C1 (evaluation of the divergence): the body with only the title
set — the spec's own example, which is to be answered 400 with nothing
published — decodes successfully into the zero-filled MovieEvent, a message
for it is written to the movie topic, and the handler answers 201. No
required-field validation ever runs: the structs declare validate tags but
no code evaluates them. -/
theorem handleEvent_missing_required_fields_published :
    Events.handleEvent Events.movieTopic (Except.ok ())
      { method := Events.Method.POST,
        body := some (Events.Json.obj [("title", Events.Json.str "Dune")]) } =
      ({ statusCode := 201, body := Events.successBody },
       [Events.Effect.bodyDecoded Events.movieTopic,
        Events.Effect.kafkaWrite
          { topic := Events.movieTopic,
            value := Events.EventData.movie
              { movie_id := 0, title := "Dune", action := "", user_id := 0 } } true,
        Events.Effect.logLine "message-sent"]) := rfl

/-- Claim C6: a request to an event endpoint whose method is not POST is
answered 405 with an empty effect list — the body is never decoded and
nothing is written to the broker. -/
theorem handleEvent_non_post_405 (topic : String) (writeResult : Except String Unit)
    (r : Events.HttpRequest) (h : r.method ≠ Events.Method.POST) :
    Events.handleEvent topic writeResult r =
      ({ statusCode := 405, body := Events.methodNotAllowedBody }, []) := by
  unfold Events.handleEvent
  simp [h]

/-- Claim C7: for a POST whose body decodes, a failing broker write yields
a 500 with exactly one write attempt and a logged failure, and a
successful write yields a 201 whose body is the success document (a
"status":"success" marker and a message field). -/
theorem handleEvent_decoded_publish_outcomes (topic : String) (r : Events.HttpRequest)
    (ev : Events.EventData) (hm : r.method = Events.Method.POST)
    (hd : Events.parseEventData topic r.body = Except.ok ev) :
    (∀ e : String, Events.handleEvent topic (Except.error e) r =
      ({ statusCode := 500, body := Events.kafkaErrorBody },
       [Events.Effect.bodyDecoded topic,
        Events.Effect.kafkaWrite { topic := topic, value := ev } false,
        Events.Effect.logLine "kafka-send-error"])) ∧
    (Events.handleEvent topic (Except.ok ()) r =
      ({ statusCode := 201, body := Events.successBody },
       [Events.Effect.bodyDecoded topic,
        Events.Effect.kafkaWrite { topic := topic, value := ev } true,
        Events.Effect.logLine "message-sent"])) := by
  unfold Events.handleEvent Events.sendToKafka
  simp [hm, hd]

/-- The consumer loop logs exactly the messages before the first read error
and nothing after it. -/
theorem consumeLoop_stops_at_error (xs ys : List Events.ReadResult) (e : String)
    (hxs : ∀ r ∈ xs, (Events.msgOf r).isSome) :
    Events.consumeLoop (xs ++ Events.ReadResult.err e :: ys) =
      xs.filterMap Events.msgOf := by
  induction xs with
  | nil => simp [Events.consumeLoop]
  | cons x rest ih =>
    cases x with
    | msg m =>
      simp only [List.cons_append, Events.consumeLoop, List.filterMap_cons,
        Events.msgOf]
      exact congrArg _ (ih (fun r hr => hxs r (by simp [hr])))
    | err e2 => exact absurd (hxs (Events.ReadResult.err e2) (by simp)) (by simp [Events.msgOf])

/-- Claim C8: a consumer task that has read the error-free stream xs and
then hits a read error logs exactly the messages of xs and terminates: the
rest of the stream (ys) is never read or logged — the result is the same as
if the stream ended at the error, with no reconnect or backoff. -/
theorem consumeTopic_terminates_on_first_error (env : Env) (topic : String)
    (xs ys : List Events.ReadResult) (e : String)
    (hxs : ∀ r ∈ xs, (Events.msgOf r).isSome) :
    (Events.consumeTopic env topic (xs ++ Events.ReadResult.err e :: ys)).2 =
      xs.filterMap Events.msgOf ∧
    (Events.consumeTopic env topic (xs ++ Events.ReadResult.err e :: ys)).2 =
      (Events.consumeTopic env topic (xs ++ [Events.ReadResult.err e])).2 := by
  have h1 := consumeLoop_stops_at_error xs ys e hxs
  have h2 := consumeLoop_stops_at_error xs [] e hxs
  unfold Events.consumeTopic
  constructor
  · exact h1
  · rw [h1]
    exact h2.symm

/-- Once the once cell is filled with a writer, every further call returns
that writer and leaves the state unchanged: no further allocation. -/
theorem runCalls_after_init (env : Env) (k : Nat) (w : Events.KafkaWriter) (n : Nat) :
    Events.runCalls env { nextId := k, kafkaWriter := some w } n =
      (List.replicate n w, { nextId := k, kafkaWriter := some w }) := by
  induction n with
  | zero => rfl
  | succ m ih => simp [Events.runCalls, Events.getKafkaWriter, ih, List.replicate]

/-- Claim C9: for any positive number of getKafkaWriter calls starting from
process start (their concurrent execution linearized by sync.Once), the
allocation counter ends at exactly 1 — the initializer ran exactly once —
and every call returned the single writer built by that first
initialization. -/
theorem getKafkaWriter_exactly_once (env : Env) (n : Nat) (h : 1 ≤ n) :
    (Events.runCalls env Events.initialOnceState n).2 =
      { nextId := 1, kafkaWriter := some (Events.initKafkaWriter env 0) } ∧
    ∀ w ∈ (Events.runCalls env Events.initialOnceState n).1,
      w = Events.initKafkaWriter env 0 := by
  obtain ⟨m, rfl⟩ : ∃ m, n = m + 1 := ⟨n - 1, by omega⟩
  simp only [Events.runCalls, Events.getKafkaWriter, Events.initialOnceState,
    runCalls_after_init]
  constructor
  · trivial
  · intro w hw
    simp only [List.mem_cons, List.eq_of_mem_replicate] at hw
    rcases hw with h1 | h1
    · exact h1
    · exact List.eq_of_mem_replicate h1

/-- Claim C10: the health endpoint answers 200 with the status document
(status true, service events-service, the current UTC instant) for every
request, whatever its method — while the same non-POST request to an event
endpoint is answered 405: the method rejection is not applied to the health
path. -/
theorem health_endpoint_ignores_method (writeResult : Except String Unit)
    (r : Events.HttpRequest) (now : Events.GoTime) :
    Events.serviceMux "/api/events/health" writeResult r now =
      some ({ statusCode := 200, body := Events.healthCheckBody now }, []) ∧
    (r.method ≠ Events.Method.POST →
      Events.serviceMux "/api/events/movie" writeResult r now =
        some ({ statusCode := 405, body := Events.methodNotAllowedBody }, [])) := by
  constructor
  · rfl
  · intro h
    unfold Events.serviceMux Events.handleEvent
    simp [h]

/-- Witness for claim C3 at a concrete configuration, path and source. -/
theorem routeRequest_movies_disabled_monolith_witness :
    Proxy.goHasPfx "/api/movies/42" "/api/movies" = true ∧
    sampleConfigOff.gradualMigration = false ∧
    Proxy.routeRequest sampleConfigOff "/api/movies/42" sampleSource =
      ((Proxy.createReverseProxy "http://localhost:8080", "monolith"), sampleSource) :=
  ⟨by decide, rfl,
    routeRequest_movies_disabled_monolith sampleConfigOff "/api/movies/42" sampleSource
      (by decide) rfl⟩

/-- Witness for claim C2 at percentage 100: the draw (55) is below 100, so
the movies service is chosen and the source is advanced by one draw. -/
theorem routeRequest_movies_enabled_split_witness :
    Proxy.goHasPfx "/api/movies/42" "/api/movies" = true ∧
    sampleConfigOn100.gradualMigration = true ∧
    sampleConfigOn100.moviesMigrationPercent = 100 ∧
    Proxy.routeRequest sampleConfigOn100 "/api/movies/42" sampleSource =
      ((Proxy.createReverseProxy "http://localhost:8081", "movies-service"),
       { draws := fun _ => 255, idx := 1 }) :=
  ⟨by decide, rfl, rfl,
    (routeRequest_movies_enabled_split sampleConfigOn100 "/api/movies/42" sampleSource
      (by decide) rfl).2.1 rfl⟩

/-- Witness for claim C4 at a default path and an events path. -/
theorem routeRequest_default_and_events_witness :
    Proxy.goHasPfx "/health" "/api/movies" = false ∧
    Proxy.goHasPfx "/health" "/api/events" = false ∧
    Proxy.goHasPfx "/api/events/movie" "/api/events" = true ∧
    Proxy.routeRequest sampleConfigOn100 "/health" sampleSource =
      ((Proxy.createReverseProxy "http://localhost:8080", "monolith"), sampleSource) ∧
    Proxy.routeRequest sampleConfigOn100 "/api/events/movie" sampleSource =
      ((Proxy.createReverseProxy "http://localhost:8082", "events-service"), sampleSource) :=
  ⟨by decide, by decide, by decide,
    (routeRequest_default_and_events sampleConfigOn100 "/health" sampleSource).1
      (by decide) (by decide),
    (routeRequest_default_and_events sampleConfigOn100 "/api/events/movie" sampleSource).2
      (by decide)⟩

/-- Witness for claim C5 on an in-range value, an out-of-range value and a
non-numeric value. -/
theorem parseMigrationPercent_in_range_witness :
    Proxy.goAtoi "42" = some 42 ∧ Proxy.parseMigrationPercent "42" = 42 ∧
    Proxy.goAtoi "150" = some 150 ∧ Proxy.parseMigrationPercent "150" = 0 ∧
    Proxy.goAtoi "abc" = none ∧ Proxy.parseMigrationPercent "abc" = 0 :=
  ⟨by decide, (parseMigrationPercent_in_range "42" emptyEnv).2.2.2.1 42 (by decide)
      (by decide) (by decide),
   by decide, (parseMigrationPercent_in_range "150" emptyEnv).2.2.1 150 (by decide)
      (by decide),
   by decide, (parseMigrationPercent_in_range "abc" emptyEnv).2.1 (by decide)⟩

/-- Witness for claim C6 at a GET to the movie endpoint. -/
theorem handleEvent_non_post_405_witness :
    (Events.Method.GET ≠ Events.Method.POST) ∧
    Events.handleEvent Events.movieTopic (Except.ok ())
      { method := Events.Method.GET, body := none } =
      ({ statusCode := 405, body := Events.methodNotAllowedBody }, []) :=
  ⟨by decide,
    handleEvent_non_post_405 Events.movieTopic (Except.ok ())
      { method := Events.Method.GET, body := none } (by decide)⟩

/-- Witness for claim C7 at a fully populated movie event, under a failing
and under a succeeding broker write. -/
theorem handleEvent_decoded_publish_outcomes_witness :
    Events.parseEventData Events.movieTopic (some sampleMovieBody) =
      Except.ok sampleMovieEvent ∧
    Events.handleEvent Events.movieTopic (Except.error "broker unreachable")
      { method := Events.Method.POST, body := some sampleMovieBody } =
      ({ statusCode := 500, body := Events.kafkaErrorBody },
       [Events.Effect.bodyDecoded Events.movieTopic,
        Events.Effect.kafkaWrite { topic := Events.movieTopic, value := sampleMovieEvent } false,
        Events.Effect.logLine "kafka-send-error"]) ∧
    Events.handleEvent Events.movieTopic (Except.ok ())
      { method := Events.Method.POST, body := some sampleMovieBody } =
      ({ statusCode := 201, body := Events.successBody },
       [Events.Effect.bodyDecoded Events.movieTopic,
        Events.Effect.kafkaWrite { topic := Events.movieTopic, value := sampleMovieEvent } true,
        Events.Effect.logLine "message-sent"]) :=
  ⟨rfl,
    (handleEvent_decoded_publish_outcomes Events.movieTopic
      { method := Events.Method.POST, body := some sampleMovieBody }
      sampleMovieEvent rfl rfl).1 "broker unreachable",
    (handleEvent_decoded_publish_outcomes Events.movieTopic
      { method := Events.Method.POST, body := some sampleMovieBody }
      sampleMovieEvent rfl rfl).2⟩

/-- Witness for claim C8 on a stream with one message, then an error, then
one further message that is never logged. -/
theorem consumeTopic_terminates_on_first_error_witness :
    (∀ r ∈ [Events.ReadResult.msg sampleMsg1], (Events.msgOf r).isSome) ∧
    (Events.consumeTopic emptyEnv "movie-events"
      ([Events.ReadResult.msg sampleMsg1] ++ Events.ReadResult.err "EOF" ::
        [Events.ReadResult.msg sampleMsg2])).2 =
      [Events.ReadResult.msg sampleMsg1].filterMap Events.msgOf ∧
    (Events.consumeTopic emptyEnv "movie-events"
      ([Events.ReadResult.msg sampleMsg1] ++ Events.ReadResult.err "EOF" ::
        [Events.ReadResult.msg sampleMsg2])).2 =
      (Events.consumeTopic emptyEnv "movie-events"
        ([Events.ReadResult.msg sampleMsg1] ++ [Events.ReadResult.err "EOF"])).2 :=
  ⟨by simp [Events.msgOf],
    (consumeTopic_terminates_on_first_error emptyEnv "movie-events"
      [Events.ReadResult.msg sampleMsg1] [Events.ReadResult.msg sampleMsg2] "EOF"
      (by simp [Events.msgOf])).1,
    (consumeTopic_terminates_on_first_error emptyEnv "movie-events"
      [Events.ReadResult.msg sampleMsg1] [Events.ReadResult.msg sampleMsg2] "EOF"
      (by simp [Events.msgOf])).2⟩

/-- Witness for claim C9 at three calls. -/
theorem getKafkaWriter_exactly_once_witness :
    1 ≤ 3 ∧
    ((Events.runCalls emptyEnv Events.initialOnceState 3).2 =
      { nextId := 1, kafkaWriter := some (Events.initKafkaWriter emptyEnv 0) } ∧
    ∀ w ∈ (Events.runCalls emptyEnv Events.initialOnceState 3).1,
      w = Events.initKafkaWriter emptyEnv 0) :=
  ⟨by decide, getKafkaWriter_exactly_once emptyEnv 3 (by decide)⟩

/-- Witness for claim C10 at a GET request: 200 on the health path, 405 on
the movie path. -/
theorem health_endpoint_ignores_method_witness :
    (Events.Method.GET ≠ Events.Method.POST) ∧
    Events.serviceMux "/api/events/health" (Except.ok ())
      { method := Events.Method.GET, body := none } { rep := "2026-01-01T00:00:00Z" } =
      some ({ statusCode := 200,
              body := Events.healthCheckBody { rep := "2026-01-01T00:00:00Z" } }, []) ∧
    Events.serviceMux "/api/events/movie" (Except.ok ())
      { method := Events.Method.GET, body := none } { rep := "2026-01-01T00:00:00Z" } =
      some ({ statusCode := 405, body := Events.methodNotAllowedBody }, []) :=
  ⟨by decide,
    (health_endpoint_ignores_method (Except.ok ())
      { method := Events.Method.GET, body := none } { rep := "2026-01-01T00:00:00Z" }).1,
    (health_endpoint_ignores_method (Except.ok ())
      { method := Events.Method.GET, body := none } { rep := "2026-01-01T00:00:00Z" }).2
      (by decide)⟩

end CinemaAbyss
